import Mathlib

/-!
Shallow embedding of the fast_log asynchronous logging pipeline
(src/src/fast_log.rs and src/src/plugin/file_split.rs).

Machine integers are modelled as Nat (all byte counts are non-negative and
no arithmetic here can overflow in practice, sizes are usize); fallible
operations return Option or Except; the observable I/O of a call is
returned as an explicit value or event trace.
-/

namespace FastLog

/-- Command: the tri-state control tag carried in every record, with the
variants used throughout src/src/fast_log.rs
(CommandRecord / CommandFlush / CommandExit). -/
inductive Command where
  | CommandRecord
  | CommandFlush
  | CommandExit
  deriving DecidableEq, Repr

/-- FastLogRecord, with the fields assigned in Logger::log, exit and flush
(src/src/fast_log.rs).  The `now : SystemTime` field is omitted: wall-clock
time is not modelled and no claim mentions it.  log::Level is represented
by its i32 value: Error = 1 .. Trace = 5. -/
structure FastLogRecord where
  command : Command
  level : Nat
  target : String
  args : String
  module_path : String
  file : String
  line : Option Nat
  formated : String
  deriving DecidableEq, Repr

/-- The metadata of an incoming log::Record, as read by Logger::log:
level, target, args, module_path, file and line (module_path and file are
optional in the log crate and defaulted to "" by Logger::log). -/
structure Record where
  level : Nat
  target : String
  args : String
  module_path : Option String
  file : Option String
  line : Option Nat
  deriving DecidableEq, Repr

/-- LoggerSender (src/src/fast_log.rs lines 23-36): the configured filter
plus the sending half of the ingest channel.  The channel itself is
modelled by returning the record handed to `send`; `filter` returns true
to drop a record. -/
structure LoggerSender where
  filter : Record → Bool

/-- Logger::enabled (src/src/fast_log.rs lines 69-71):
`metadata.level() <= self.get_level()`, on the numeric level values, so a
record is enabled exactly when its level number is at most the Logger's
threshold number. -/
def Logger.enabled (loggerLevel : Nat) (metaLevel : Nat) : Bool :=
  metaLevel ≤ loggerLevel

/-- The FastLogRecord built by Logger::log (src/src/fast_log.rs
lines 81-91): command CommandRecord, fields copied from the incoming
record, `formated` left empty for the dispatcher to fill. -/
def mkSent (record : Record) : FastLogRecord :=
  { command := Command.CommandRecord
    level := record.level
    target := record.target
    args := record.args
    module_path := record.module_path.getD ""
    file := record.file.getD ""
    line := record.line
    formated := "" }

/-- Logger::log (src/src/fast_log.rs lines 72-95), as the record handed to
the ingest channel's send, or none when nothing is sent.  `loggerLevel` is
the Logger's atomic level field: the method can read it but never does.
The result of `sender.send` is discarded by the source, so delivery
success does not influence the caller-visible behaviour; the call always
returns to the caller. -/
def Logger.log (loggerLevel : Nat) (sender : Option LoggerSender)
    (record : Record) : Option FastLogRecord :=
  match sender with
  | none => none
  | some s =>
    if ! s.filter record then
      match record.module_path with
      | some v =>
        if v = "cogo::io::sys::select" then none
        else some (mkSent record)
      | none => some (mkSent record)
    else none

/-- The record constructed and submitted by exit()
(src/src/fast_log.rs lines 248-258). -/
def exitSubmitRecord : FastLogRecord :=
  { command := Command.CommandExit
    level := 3
    target := ""
    args := ""
    module_path := ""
    file := ""
    line := none
    formated := "" }

/-- The record constructed and submitted by flush()
(src/src/fast_log.rs lines 276-286). -/
def flushSubmitRecord : FastLogRecord :=
  { command := Command.CommandFlush
    level := 3
    target := ""
    args := ""
    module_path := ""
    file := ""
    line := none
    formated := "" }

/-- exit() (src/src/fast_log.rs lines 244-269).  `installed` is whether
LOG_SENDER currently holds a sender; `sendOk` is whether the channel send
succeeds (it fails when the receiving side is gone).  First component: the
value returned to the caller; second component: the record passed to
`send`, when a send is attempted. -/
def exit (installed : Bool) (sendOk : Bool) :
    Except String Unit × Option FastLogRecord :=
  if installed then
    if sendOk then (Except.ok (), some exitSubmitRecord)
    else (Except.error "[fast_log] exit fail!", some exitSubmitRecord)
  else (Except.error "[fast_log] exit fail!", none)

/-- flush() (src/src/fast_log.rs lines 272-296), with the same modelling
as `exit`. -/
def flush (installed : Bool) (sendOk : Bool) :
    Except String Unit × Option FastLogRecord :=
  if installed then
    if sendOk then (Except.ok (), some flushSubmitRecord)
    else (Except.error "[fast_log] flush fail!", some flushSubmitRecord)
  else (Except.error "[fast_log] flush fail!", none)

/-- The process-wide state mutated by initialization: the Logger's atomic
level and the LOG_SENDER slot. -/
structure GlobalState where
  loggerLevel : Nat
  sender : Option LoggerSender

/-- A configured appender, reduced to the data init_custom_log consults
when spawning workers: its type_name. -/
structure Appender where
  type_name : String

/-- init_custom_log (src/src/fast_log.rs lines 165-242).  Returns the
process-wide state after the call, how many background tasks the call
spawns (the dispatcher thread, which itself spawns one worker per
appender), and the value returned to the caller.  `setLoggerOk` is
whether log::set_logger succeeds (it fails when a logger was installed
before); its exact error text comes from the log crate and is modelled by
a fixed string. -/
def init_custom_log (st : GlobalState) (appenders : List Appender)
    (level : Nat) (filter : Record → Bool) (setLoggerOk : Bool) :
    GlobalState × Nat × Except String Unit :=
  if appenders.isEmpty then
    (st, 0, Except.error "[fast_log] appenders can not be empty!")
  else
    let st' : GlobalState := { loggerLevel := level, sender := some ⟨filter⟩ }
    let spawned := 1 + appenders.length
    if setLoggerOk then (st', spawned, Except.ok ())
    else (st', spawned, Except.error "[fast_log] set_logger fail")

/-- `data.formated = format.do_format(&mut data)`, as performed by the
dispatcher on every received record (src/src/fast_log.rs line 222), with
the injected formatting strategy abstracted as `fmt`. -/
def formatStep (fmt : FastLogRecord → String) (m : FastLogRecord) :
    FastLogRecord :=
  { m with formated := fmt m }

/-- The observable actions of one dispatcher iteration: a call to
RecordFormat::do_format on a received record, and the fan-out of the
shared (Arc) formatted record to every appender channel. -/
inductive DispatchEvent where
  | formatCall (m : FastLogRecord)
  | fanOut (m : FastLogRecord)
  deriving DecidableEq, Repr

/-- The dispatcher loop (src/src/fast_log.rs lines 218-234), run over the
sequence of records successfully received from the ingest channel, in
order.  (A failed recv yields the scheduler and retries, so only the
received records appear.)  Each iteration formats the record, sends the
shared handle to every appender channel, and breaks after sending when
the command is CommandExit. -/
def dispatchTrace (fmt : FastLogRecord → String) :
    List FastLogRecord → List DispatchEvent
  | [] => []
  | m :: rest =>
    let d := formatStep fmt m
    DispatchEvent.formatCall m :: DispatchEvent.fanOut d ::
      (if d.command = Command.CommandExit then [] else dispatchTrace fmt rest)

/-- The content of each appender's per-appender channel: the dispatcher
sends every fanned-out record to every sender in `sender_vec`, so all
appender channels receive exactly this sequence. -/
def appenderQueue (fmt : FastLogRecord → String)
    (msgs : List FastLogRecord) : List FastLogRecord :=
  (dispatchTrace fmt msgs).filterMap fun e =>
    match e with
    | DispatchEvent.fanOut m => some m
    | _ => none

/-- Specification-side helper: the records the dispatcher consumes from
the ingest sequence `msgs` — everything up to and including the first
record whose command is CommandExit. -/
def consume : List FastLogRecord → List FastLogRecord
  | [] => []
  | m :: rest =>
    if m.command = Command.CommandExit then [m] else m :: consume rest

/-- One receive attempt on a worker's per-appender channel: a record, or
a failed receive (`recever.recv()` returned Err). -/
inductive RecvEvent where
  | ok (m : FastLogRecord)
  | err
  deriving DecidableEq, Repr

/-- The observable actions of an appender worker: calling
`appender.do_log(msg)`, dropping the cloned wait-group handle, or calling
`cogo::coroutine::yield_now()`. -/
inductive WorkerAction where
  | doLog (m : FastLogRecord)
  | releaseWaitGroup
  | yieldNow
  deriving DecidableEq, Repr

/-- The thread-branch worker loop, used for appenders whose type_name
starts with "fast_log::plugin" (src/src/fast_log.rs lines 190-202), run
over a sequence of receive attempts.  Returns the actions performed, in
order, and whether the loop terminated. -/
def workerThread : List RecvEvent → List WorkerAction × Bool
  | [] => ([], false)
  | RecvEvent.ok m :: rest =>
    if m.command = Command.CommandExit then
      ([WorkerAction.releaseWaitGroup], true)
    else
      (WorkerAction.doLog m :: (workerThread rest).1, (workerThread rest).2)
  | RecvEvent.err :: rest =>
    (WorkerAction.yieldNow :: (workerThread rest).1, (workerThread rest).2)

/-- The coroutine-branch worker loop, used for all other appenders
(src/src/fast_log.rs lines 205-215): identical to the thread branch
except that a failed receive has no else-arm at all — the loop just
retries, performing no action. -/
def workerCoroutine : List RecvEvent → List WorkerAction × Bool
  | [] => ([], false)
  | RecvEvent.ok m :: rest =>
    if m.command = Command.CommandExit then
      ([WorkerAction.releaseWaitGroup], true)
    else
      (WorkerAction.doLog m :: (workerCoroutine rest).1,
       (workerCoroutine rest).2)
  | RecvEvent.err :: rest => workerCoroutine rest

/-- Whether a receive attempt delivers a record whose command is
CommandExit. -/
def isExitEvent : RecvEvent → Bool
  | RecvEvent.ok m => m.command == Command.CommandExit
  | RecvEvent.err => false

/-- The records delivered by a sequence of receive attempts. -/
def okMessages (evs : List RecvEvent) : List FastLogRecord :=
  evs.filterMap fun e =>
    match e with
    | RecvEvent.ok m => some m
    | RecvEvent.err => none

/-- The records a worker passed to `appender.do_log`, read off its action
list. -/
def doLogged (acts : List WorkerAction) : List FastLogRecord :=
  acts.filterMap fun a =>
    match a with
    | WorkerAction.doLog m => some m
    | _ => none

/-- What File::write reports for an attempted write: the number of bytes
accepted (possibly fewer than offered), or an error. -/
inductive WriteResult where
  | ok (n : Nat)
  | err
  deriving DecidableEq, Repr

/-- The observable operations FileSplitAppender::do_log performs on its
files and on the zip channel, in order: submitting a ZipPack, opening the
timestamp-named rotation file, writing the whole mirror into it,
truncating the temp file (set_len), seeking, writing the record's bytes,
and flushing the temp file. -/
inductive FileOp where
  | zipSubmit (data : List Nat) (log_file_name : String)
  | rotFileOpen
  | rotFileWriteAll (data : List Nat)
  | setLen (n : Nat)
  | seekStart (n : Nat)
  | write (data : List Nat)
  | flush
  deriving DecidableEq, Repr

/-- FileSplitAppenderData (src/src/plugin/file_split.rs lines 23-32).
The open File is modelled by its byte contents (`fileContent`, bytes as
Nat) together with its seek position (`cursor`); the zip channel's
sending half is modelled by the emitted FileOp trace. -/
structure FileSplitAppenderData where
  max_split_bytes : Nat
  dir_path : String
  fileContent : List Nat
  cursor : Nat
  zip_compress : Bool
  temp_bytes : Nat
  temp_data : Option (List Nat)
  deriving DecidableEq, Repr

/-- Writing `bytes` at position `pos` of a file whose contents are
`content`: overwrites in place and extends at the end, without
truncating. -/
def writeAt (content : List Nat) (pos : Nat) (bytes : List Nat) :
    List Nat :=
  content.take pos ++ bytes ++ content.drop (pos + bytes.length)

/-- Rust str::is_empty, over the string's characters. -/
def strIsEmpty (s : String) : Bool :=
  s.data.isEmpty

/-- Rust str::ends_with, over the string's characters (the suffixes used
by the source, ".log" and "/", are ASCII, so the character-level and
byte-level readings agree). -/
def strEndsWith (s suffix : String) : Bool :=
  suffix.data.isSuffixOf s.data

/-- The path checks at the top of FileSplitAppender::new
(src/src/plugin/file_split.rs lines 39-44): true exactly when the call
proceeds past both panics to open the temp file. -/
def pathAccepted (dir_path : String) : Bool :=
  if !strIsEmpty dir_path && strEndsWith dir_path ".log" then false
  else if !strIsEmpty dir_path && !strEndsWith dir_path "/" then false
  else true

/-- FileSplitAppender::new (src/src/plugin/file_split.rs lines 38-81).
`existing` is the current contents of the fixed-name temp file
dir_path ++ "temp" ++ ".log" (empty when the file is newly created); the
metadata query and read_to_end are modelled as succeeding, so temp_bytes
is the file length, the mirror holds the file's bytes, and the cursor is
sought to end-of-file.  none models the panics on a rejected path. -/
def FileSplitAppender.new (dir_path : String) (max_temp_size : Nat)
    (allow_zip_compress : Bool) (existing : List Nat) :
    Option FileSplitAppenderData :=
  if pathAccepted dir_path then
    some { max_split_bytes := max_temp_size
           dir_path := dir_path
           fileContent := existing
           cursor := existing.length
           zip_compress := allow_zip_compress
           temp_bytes := existing.length
           temp_data := some existing }
  else none

/-- FileSplitAppender::do_log (src/src/plugin/file_split.rs
lines 85-135).  `log_data` is `record.formated` as bytes; `openOk` is
whether the timestamp-named rotation file opens (consulted only in the
non-zip rotation branch); `wr` is what File::write returns for the
record's bytes.  Returns none when the source would panic (an unwrap of
an empty Option), otherwise the new state and the file operations
performed, in order.  The timestamp-named rotation file's name depends on
the wall clock and is not modelled. -/
def FileSplitAppender.do_log (d : FileSplitAppenderData)
    (log_data : List Nat) (openOk : Bool) (wr : WriteResult) :
    Option (FileSplitAppenderData × List FileOp) :=
  let rotated : Option (FileSplitAppenderData × List FileOp) :=
    if d.max_split_bytes ≤ d.temp_bytes then
      let archived : Option (FileSplitAppenderData × List FileOp) :=
        if d.zip_compress then
          match d.temp_data with
          | some temp =>
            some ({ d with temp_data := none },
              [FileOp.zipSubmit temp (d.dir_path ++ "temp" ++ ".log")])
          | none => some (d, [])
        else
          if openOk then
            match d.temp_data with
            | some temp =>
              some ({ d with temp_data := none },
                [FileOp.rotFileOpen, FileOp.rotFileWriteAll temp])
            | none => none
          else some (d, [FileOp.rotFileOpen])
      match archived with
      | none => none
      | some (d1, t1) =>
        some ({ d1 with fileContent := [], cursor := 0,
                        temp_bytes := 0, temp_data := some [] },
          t1 ++ [FileOp.setLen 0, FileOp.seekStart 0])
    else some (d, [])
  match rotated with
  | none => none
  | some (d2, t2) =>
    match wr with
    | WriteResult.ok n =>
      match d2.temp_data with
      | some l =>
        some ({ d2 with
                  fileContent := writeAt d2.fileContent d2.cursor
                    (log_data.take n)
                  cursor := d2.cursor + n
                  temp_data := some (l ++ log_data)
                  temp_bytes := d2.temp_bytes + n },
          t2 ++ [FileOp.write log_data, FileOp.flush])
      | none => none
    | WriteResult.err =>
      some (d2, t2 ++ [FileOp.write log_data, FileOp.flush])

/-- The spec's mirror invariant, as a decidable check on a
FileSplitAppenderData: the mirror is present and the mirror's length, the
running byte count temp_bytes, the temp file's length and the cursor all
agree. -/
def mirrorInvB (d : FileSplitAppenderData) : Bool :=
  match d.temp_data with
  | some l =>
    l.length == d.fileContent.length &&
    d.temp_bytes == d.fileContent.length &&
    d.cursor == d.fileContent.length
  | none => false

/-! Theorems. -/

/-- C9: FileSplitAppender::new accepts the empty directory path, rejects
every non-empty path lacking a trailing separator — in particular a bare
filename ending in ".log" — and proceeds to open the fixed-name temp file
exactly when the path check passes, so only empty paths or paths ending
in the separator proceed. -/
theorem C9_path_validation :
    pathAccepted "" = true ∧
    pathAccepted "temp.log" = false ∧
    (∀ p : String, strIsEmpty p = false → strEndsWith p "/" = false →
      pathAccepted p = false) ∧
    (∀ p : String, pathAccepted p = true →
      strIsEmpty p = true ∨ strEndsWith p "/" = true) ∧
    (∀ (p : String) (m : Nat) (z : Bool) (e : List Nat),
      (FileSplitAppender.new p m z e).isSome = pathAccepted p) := by
  refine ⟨by decide, by decide, ?_, ?_, ?_⟩
  · intro p h1 h2
    cases h3 : strEndsWith p ".log" <;> simp [pathAccepted, h1, h2, h3]
  · intro p h
    cases h1 : strIsEmpty p <;> cases h2 : strEndsWith p ".log" <;>
      cases h3 : strEndsWith p "/" <;> simp_all [pathAccepted]
  · intro p m z e
    cases h : pathAccepted p <;> simp [FileSplitAppender.new, h]

/-- C9 witness: the bare filename "x.log" is rejected. -/
theorem C9_witness : pathAccepted "x.log" = false :=
  C9_path_validation.2.2.1 "x.log" (by decide) (by decide)
/-- C10: Logger::log silently drops any record whose module_path is
exactly "cogo::io::sys::select": whatever the Logger's level threshold,
and even though the filter does not reject the record, nothing is handed
to the ingest channel. -/
theorem C10_cogo_module_dropped (loggerLevel : Nat) (s : LoggerSender)
    (record : Record) (hf : s.filter record = false)
    (hm : record.module_path = some "cogo::io::sys::select") :
    Logger.log loggerLevel (some s) record = none := by
  simp [Logger.log, hf, hm]

/-- C10 witness: a concrete Trace-level record from that module is
dropped under the permissive filter and the most restrictive level. -/
theorem C10_witness :
    Logger.log 1 (some ⟨fun _ => false⟩)
      { level := 5, target := "t", args := "a",
        module_path := some "cogo::io::sys::select", file := none,
        line := none } = none :=
  C10_cogo_module_dropped 1 ⟨fun _ => false⟩ _ rfl rfl

/-- C3 counterexample: a record whose severity is strictly below the
current threshold (Logger::enabled is false for it) is still handed to
the ingest channel — Logger::log never consults the level, so the
claimed severity no-op fails. -/
theorem C3_counterexample :
    Logger.enabled 1 5 = false ∧
    Logger.log 1 (some ⟨fun _ => false⟩)
        { level := 5, target := "t", args := "a",
          module_path := some "app", file := none, line := none } =
      some
        { command := Command.CommandRecord, level := 5, target := "t",
          args := "a", module_path := "app", file := "", line := none,
          formated := "" } :=
  ⟨rfl, rfl⟩

/-- C3 amended: Logger::log ignores the severity threshold entirely; with
no sender installed nothing is sent; with a sender installed, a record is
submitted iff the filter returns false (true means drop) and the
module_path is not exactly "cogo::io::sys::select"; the submitted record
has command CommandRecord, copies the incoming record's fields and has an
empty `formated`; the channel-send result is discarded, so the call
returns normally to the caller in every case. -/
theorem C3_amended (loggerLevel : Nat) (s : LoggerSender)
    (record : Record) :
    (∀ lvl, Logger.log lvl (some s) record =
      Logger.log loggerLevel (some s) record) ∧
    (∀ lvl, Logger.log lvl none record = none) ∧
    (s.filter record = true → Logger.log loggerLevel (some s) record = none) ∧
    (Logger.log loggerLevel (some s) record ≠ none ↔
      s.filter record = false ∧
        record.module_path ≠ some "cogo::io::sys::select") ∧
    (∀ out, Logger.log loggerLevel (some s) record = some out →
      out = mkSent record ∧ out.command = Command.CommandRecord ∧
        out.formated = "") := by
  refine ⟨fun lvl => rfl, fun lvl => rfl, ?_, ?_, ?_⟩
  · intro hf
    simp [Logger.log, hf]
  · cases hf : s.filter record
    · rcases hm : record.module_path with _ | v
      · simp [Logger.log, hf, hm]
      · by_cases hv : v = "cogo::io::sys::select" <;>
          simp [Logger.log, hf, hm, hv]
    · simp [Logger.log, hf]
  · intro out h
    cases hf : s.filter record
    · rcases hm : record.module_path with _ | v
      · simp [Logger.log, hf, hm] at h
        exact ⟨h.symm, by rw [← h]; rfl, by rw [← h]; rfl⟩
      · by_cases hv : v = "cogo::io::sys::select"
        · simp [Logger.log, hf, hm, hv] at h
        · simp [Logger.log, hf, hm, hv] at h
          exact ⟨h.symm, by rw [← h]; rfl, by rw [← h]; rfl⟩
    · simp [Logger.log, hf] at h

/-- C3 amended witness: with the filter rejecting everything, a concrete
record is not submitted. -/
theorem C3_amended_witness :
    Logger.log 3 (some ⟨fun _ => true⟩)
      { level := 1, target := "", args := "", module_path := none,
        file := none, line := none } = none :=
  (C3_amended 3 ⟨fun _ => true⟩ _).2.2.1 rfl

/-- C5 counterexample: with a pipeline initialized (a sender installed)
but the channel send failing because the consumer is gone, exit() and
flush() still return an error — so "error if and only if no pipeline has
been initialized" fails in the only-if direction. -/
theorem C5_counterexample :
    (FastLog.exit true false).1 = Except.error "[fast_log] exit fail!" ∧
    (FastLog.flush true false).1 =
      Except.error "[fast_log] flush fail!" :=
  ⟨rfl, rfl⟩

/-- C5 amended: exit() and flush() hand a single Exit (resp. Flush)
record to the channel's send exactly when a sender is installed, return
Ok exactly when a sender is installed and the send succeeds, and in every
other case return the explicit error value "[fast_log] exit fail!"
(resp. "[fast_log] flush fail!") rather than silently doing nothing. -/
theorem C5_amended (installed sendOk : Bool) :
    (FastLog.exit installed sendOk).1 =
      (if installed && sendOk then Except.ok ()
       else Except.error "[fast_log] exit fail!") ∧
    (FastLog.exit installed sendOk).2 =
      (if installed then some exitSubmitRecord else none) ∧
    exitSubmitRecord.command = Command.CommandExit ∧
    (FastLog.flush installed sendOk).1 =
      (if installed && sendOk then Except.ok ()
       else Except.error "[fast_log] flush fail!") ∧
    (FastLog.flush installed sendOk).2 =
      (if installed then some flushSubmitRecord else none) ∧
    flushSubmitRecord.command = Command.CommandFlush := by
  cases installed <;> cases sendOk <;>
    exact ⟨rfl, rfl, rfl, rfl, rfl, rfl⟩

/-- C6: init_custom_log called with an empty appender list returns the
initialization error, spawns no background task, and leaves the
process-wide state (the sender slot and the logger level) exactly as it
was. -/
theorem C6_empty_appenders (st : GlobalState) (level : Nat)
    (filter : Record → Bool) (setLoggerOk : Bool) :
    init_custom_log st [] level filter setLoggerOk =
      (st, 0, Except.error "[fast_log] appenders can not be empty!") :=
  rfl

/-- The dispatcher trace is, message by consumed message, a do_format
call followed by the fan-out of the formatted record. -/
theorem dispatchTrace_flatMap (fmt : FastLogRecord → String)
    (msgs : List FastLogRecord) :
    dispatchTrace fmt msgs =
      (consume msgs).flatMap fun m =>
        [DispatchEvent.formatCall m,
         DispatchEvent.fanOut (formatStep fmt m)] := by
  induction msgs with
  | nil => rfl
  | cons m rest ih =>
    by_cases h : m.command = Command.CommandExit
    · simp [dispatchTrace, consume, formatStep, h]
    · simp [dispatchTrace, consume, formatStep, h, ih]

/-- Every appender channel receives the consumed prefix, formatted, in
order. -/
theorem appenderQueue_eq (fmt : FastLogRecord → String)
    (msgs : List FastLogRecord) :
    appenderQueue fmt msgs = (consume msgs).map (formatStep fmt) := by
  induction msgs with
  | nil => rfl
  | cons m rest ih =>
    by_cases h : m.command = Command.CommandExit
    · simp [appenderQueue, dispatchTrace, consume, formatStep, h]
    · simp only [appenderQueue] at ih
      simp [appenderQueue, dispatchTrace, consume, formatStep, h, ih]

/-- In the consumed prefix of the ingest sequence, a CommandExit record
can occur only in the last position. -/
theorem consume_dropLast_no_exit (msgs : List FastLogRecord) :
    (consume msgs).dropLast.all
      (fun m => !(m.command == Command.CommandExit)) = true := by
  induction msgs with
  | nil => rfl
  | cons m rest ih =>
    by_cases h : m.command = Command.CommandExit
    · simp [consume, h]
    · rcases hc : consume rest with _ | ⟨x, xs⟩
      · simp [consume, h, hc]
      · rw [hc] at ih
        rw [consume, if_neg h, hc, List.dropLast_cons₂, List.all_cons, ih]
        simp [h]

/-- C4 counterexample: the dispatcher invokes do_format on a consumed
message whose command is CommandExit — formatting is not restricted to
Record messages, so "only when the message's command is Record" fails. -/
theorem C4_counterexample :
    dispatchTrace (fun _ => "F") [exitSubmitRecord] =
      [DispatchEvent.formatCall exitSubmitRecord,
       DispatchEvent.fanOut { exitSubmitRecord with formated := "F" }] ∧
    exitSubmitRecord.command ≠ Command.CommandRecord :=
  ⟨rfl, by decide⟩

/-- C4 amended: for every message the dispatcher consumes from the ingest
channel, do_format is invoked exactly once — regardless of the message's
command, so Flush and Exit messages are formatted too — and the
invocation precedes the fan-out of that message's shared handle to the
appender channels: the dispatcher trace is, consumed message by consumed
message, one formatCall followed by one fan-out of the formatted record,
and all appenders receive exactly the fanned-out records. -/
theorem C4_format_once_before_fanout (fmt : FastLogRecord → String)
    (msgs : List FastLogRecord) :
    dispatchTrace fmt msgs =
      (consume msgs).flatMap
        (fun m =>
          [DispatchEvent.formatCall m,
           DispatchEvent.fanOut (formatStep fmt m)]) ∧
    appenderQueue fmt msgs = (consume msgs).map (formatStep fmt) :=
  ⟨dispatchTrace_flatMap fmt msgs, appenderQueue_eq fmt msgs⟩

/-- C8: every appender channel receives exactly the consumed prefix of
the ingest sequence, formatted, in consumption order, and a CommandExit
record can occur only as the final element of that sequence — so a Record
submitted before an Exit reaches each appender's channel before the Exit,
and Exit is the last message any appender receives. -/
theorem C8_exit_last (fmt : FastLogRecord → String)
    (msgs : List FastLogRecord) :
    appenderQueue fmt msgs = (consume msgs).map (formatStep fmt) ∧
    (appenderQueue fmt msgs).dropLast.all
      (fun m => !(m.command == Command.CommandExit)) = true := by
  refine ⟨appenderQueue_eq fmt msgs, ?_⟩
  rw [appenderQueue_eq, ← List.map_dropLast, List.all_map]
  exact consume_dropLast_no_exit msgs

/-- The thread-branch worker terminates exactly when the receive sequence
delivers a CommandExit record. -/
theorem workerThread_stops_iff (evs : List RecvEvent) :
    (workerThread evs).2 = evs.any isExitEvent := by
  induction evs with
  | nil => rfl
  | cons e rest ih =>
    cases e with
    | ok m =>
      by_cases h : m.command = Command.CommandExit
      · simp [workerThread, isExitEvent, h]
      · simp [workerThread, isExitEvent, h, ih]
    | err => simp [workerThread, isExitEvent, ih]

/-- The coroutine-branch worker terminates exactly when the receive
sequence delivers a CommandExit record. -/
theorem workerCoroutine_stops_iff (evs : List RecvEvent) :
    (workerCoroutine evs).2 = evs.any isExitEvent := by
  induction evs with
  | nil => rfl
  | cons e rest ih =>
    cases e with
    | ok m =>
      by_cases h : m.command = Command.CommandExit
      · simp [workerCoroutine, isExitEvent, h]
      · simp [workerCoroutine, isExitEvent, h, ih]
    | err => simp [workerCoroutine, isExitEvent, ih]

/-- The thread-branch worker calls do_log exactly on the delivered
records strictly before the first CommandExit, in order. -/
theorem workerThread_doLogged (evs : List RecvEvent) :
    doLogged (workerThread evs).1 =
      (okMessages evs).takeWhile
        (fun m => !(m.command == Command.CommandExit)) := by
  induction evs with
  | nil => rfl
  | cons e rest ih =>
    simp only [doLogged, okMessages] at ih ⊢
    cases e with
    | ok m =>
      by_cases h : m.command = Command.CommandExit
      · simp [workerThread, h]
      · simp [workerThread, h, ih]
    | err => simp [workerThread, ih]

/-- The coroutine-branch worker calls do_log exactly on the delivered
records strictly before the first CommandExit, in order. -/
theorem workerCoroutine_doLogged (evs : List RecvEvent) :
    doLogged (workerCoroutine evs).1 =
      (okMessages evs).takeWhile
        (fun m => !(m.command == Command.CommandExit)) := by
  induction evs with
  | nil => rfl
  | cons e rest ih =>
    simp only [doLogged, okMessages] at ih ⊢
    cases e with
    | ok m =>
      by_cases h : m.command = Command.CommandExit
      · simp [workerCoroutine, h]
      · simp [workerCoroutine, h, ih]
    | err => simp [workerCoroutine, ih]

/-- The coroutine-branch worker never yields the scheduler. -/
theorem workerCoroutine_no_yield (evs : List RecvEvent) :
    (workerCoroutine evs).1.count WorkerAction.yieldNow = 0 := by
  induction evs with
  | nil => rfl
  | cons e rest ih =>
    cases e with
    | ok m =>
      by_cases h : m.command = Command.CommandExit
      · simp [workerCoroutine, h, List.count_cons]
      · simp [workerCoroutine, h, List.count_cons, ih]
    | err => simp [workerCoroutine, ih]

/-- C7 counterexample: on a failed receive the lightweight-task branch
performs no action at all — in particular it does not yield the
scheduler — while the thread branch does yield; the claim's "a failed
receive yields the scheduler" fails for the lightweight branch. -/
theorem C7_counterexample :
    (workerCoroutine [RecvEvent.err]).1 = [] ∧
    (workerThread [RecvEvent.err]).1 = [WorkerAction.yieldNow] :=
  ⟨rfl, rfl⟩

/-- C7 amended: both worker branches release the wait-group handle and
stop, without calling do_log, on receiving a CommandExit record, call
do_log on every other delivered record and continue, never terminate
without an explicit Exit, and on a failed receive keep the loop alive —
but only the thread branch yields the scheduler there: the lightweight
branch retries without yielding (it performs no action at all). -/
theorem C7_worker_loops (m : FastLogRecord) (rest evs : List RecvEvent) :
    workerThread (RecvEvent.err :: rest) =
      (WorkerAction.yieldNow :: (workerThread rest).1,
       (workerThread rest).2) ∧
    workerCoroutine (RecvEvent.err :: rest) = workerCoroutine rest ∧
    (workerCoroutine evs).1.count WorkerAction.yieldNow = 0 ∧
    workerThread (RecvEvent.ok m :: rest) =
      (if m.command = Command.CommandExit then
        ([WorkerAction.releaseWaitGroup], true)
       else
        (WorkerAction.doLog m :: (workerThread rest).1,
         (workerThread rest).2)) ∧
    workerCoroutine (RecvEvent.ok m :: rest) =
      (if m.command = Command.CommandExit then
        ([WorkerAction.releaseWaitGroup], true)
       else
        (WorkerAction.doLog m :: (workerCoroutine rest).1,
         (workerCoroutine rest).2)) ∧
    (workerThread evs).2 = evs.any isExitEvent ∧
    (workerCoroutine evs).2 = evs.any isExitEvent ∧
    doLogged (workerThread evs).1 =
      (okMessages evs).takeWhile
        (fun r => !(r.command == Command.CommandExit)) ∧
    doLogged (workerCoroutine evs).1 =
      (okMessages evs).takeWhile
        (fun r => !(r.command == Command.CommandExit)) := by
  refine ⟨rfl, rfl, workerCoroutine_no_yield evs, ?_, ?_,
    workerThread_stops_iff evs, workerCoroutine_stops_iff evs,
    workerThread_doLogged evs, workerCoroutine_doLogged evs⟩
  · by_cases h : m.command = Command.CommandExit <;>
      simp [workerThread, h]
  · by_cases h : m.command = Command.CommandExit <;>
      simp [workerCoroutine, h]

/-- Writing at end-of-file appends. -/
theorem writeAt_append (c bs : List Nat) :
    writeAt c c.length bs = c ++ bs := by
  simp [writeAt, List.take_length,
    List.drop_eq_nil_of_le (Nat.le_add_right c.length bs.length)]

/-- do_log at or above the threshold: rotation runs first (truncate,
seek, mirror reset), then the record is appended to the empty file and
mirror, then the flush. -/
theorem do_log_full_rotation (d : FileSplitAppenderData)
    (bytes : List Nat) (openOk : Bool) (wr : WriteResult) (l : List Nat)
    (hmirror : d.temp_data = some l)
    (hfull : d.max_split_bytes ≤ d.temp_bytes) :
    ∃ rotOps : List FileOp,
      FileSplitAppender.do_log d bytes openOk wr =
        some
          ((match wr with
            | WriteResult.ok n =>
              { d with fileContent := bytes.take n, cursor := n,
                       temp_bytes := n, temp_data := some bytes }
            | WriteResult.err =>
              { d with fileContent := [], cursor := 0, temp_bytes := 0,
                       temp_data := some [] }),
           rotOps ++ [FileOp.setLen 0, FileOp.seekStart 0,
                      FileOp.write bytes, FileOp.flush]) := by
  cases hz : d.zip_compress
  · cases hop : openOk
    · refine ⟨[FileOp.rotFileOpen], ?_⟩
      cases wr <;>
        simp [FileSplitAppender.do_log, hmirror, hfull, hz, writeAt]
    · refine ⟨[FileOp.rotFileOpen, FileOp.rotFileWriteAll l], ?_⟩
      cases wr <;>
        simp [FileSplitAppender.do_log, hmirror, hfull, hz, writeAt]
  · refine ⟨[FileOp.zipSubmit l (d.dir_path ++ "temp" ++ ".log")], ?_⟩
    cases wr <;>
      simp [FileSplitAppender.do_log, hmirror, hfull, hz, writeAt]

/-- C1: when the mirror size has reached or exceeded the threshold,
do_log rotates before appending: the active file is truncated to length 0
and the cursor seeks to offset 0 (the setLen/seekStart operations precede
the write of the record's bytes in the operation trace), the mirror is
reset to empty, and only then are the triggering record's bytes appended
to the file and the mirror — the resulting state contains exactly the new
record's accepted bytes in the file and the full record in the mirror,
with no trace of the pre-rotation content — and the file flush follows
the append. -/
theorem C1_rotation_before_append (d : FileSplitAppenderData)
    (bytes : List Nat) (openOk : Bool) (wr : WriteResult) (l : List Nat)
    (hmirror : d.temp_data = some l)
    (hfull : d.max_split_bytes ≤ d.temp_bytes) :
    ∃ rotOps : List FileOp,
      FileSplitAppender.do_log d bytes openOk wr =
        some
          ((match wr with
            | WriteResult.ok n =>
              { d with fileContent := bytes.take n, cursor := n,
                       temp_bytes := n, temp_data := some bytes }
            | WriteResult.err =>
              { d with fileContent := [], cursor := 0, temp_bytes := 0,
                       temp_data := some [] }),
           rotOps ++ [FileOp.setLen 0, FileOp.seekStart 0,
                      FileOp.write bytes, FileOp.flush]) :=
  do_log_full_rotation d bytes openOk wr l hmirror hfull

/-- C1 witness: a concrete full appender (zip mode, mirror [7] at
threshold 1) rotates and then appends the record bytes [1, 2]. -/
theorem C1_witness :
    ∃ rotOps : List FileOp,
      FileSplitAppender.do_log
          { max_split_bytes := 1, dir_path := "logs/", fileContent := [7],
            cursor := 1, zip_compress := true, temp_bytes := 1,
            temp_data := some [7] } [1, 2] true (WriteResult.ok 2) =
        some
          ({ max_split_bytes := 1, dir_path := "logs/",
             fileContent := [1, 2], cursor := 2, zip_compress := true,
             temp_bytes := 2, temp_data := some [1, 2] },
           rotOps ++ [FileOp.setLen 0, FileOp.seekStart 0,
                      FileOp.write [1, 2], FileOp.flush]) :=
  C1_rotation_before_append _ [1, 2] true (WriteResult.ok 2) [7] rfl
    (by decide)

/-- C2 counterexample: a partial File::write breaks the mirror invariant
— starting from an empty appender (where the invariant holds), a do_log
of the two-byte record [5, 6] whose write accepts only 1 byte leaves a
two-byte mirror against a one-byte file, so the invariant is not
preserved by every do_log call. -/
theorem C2_counterexample :
    mirrorInvB
        { max_split_bytes := 100, dir_path := "", fileContent := [],
          cursor := 0, zip_compress := false, temp_bytes := 0,
          temp_data := some [] } = true ∧
    FileSplitAppender.do_log
        { max_split_bytes := 100, dir_path := "", fileContent := [],
          cursor := 0, zip_compress := false, temp_bytes := 0,
          temp_data := some [] } [5, 6] true (WriteResult.ok 1) =
      some
        ({ max_split_bytes := 100, dir_path := "", fileContent := [5],
           cursor := 1, zip_compress := false, temp_bytes := 1,
           temp_data := some [5, 6] },
         [FileOp.write [5, 6], FileOp.flush]) ∧
    mirrorInvB
        { max_split_bytes := 100, dir_path := "", fileContent := [5],
          cursor := 1, zip_compress := false, temp_bytes := 1,
          temp_data := some [5, 6] } = false := by
  refine ⟨rfl, ?_, rfl⟩
  simp [FileSplitAppender.do_log, writeAt]

/-- C2 amended: the mirror invariant — the mirror is present and its
length equals the bytes held by the active file since the last rotation
(equivalently temp_bytes and the cursor) — is established by
FileSplitAppender::new, which reads the existing temp file fully into the
mirror and sets temp_bytes to the file length, and is preserved by every
do_log call, including rotating ones, whose File::write either fails or
accepts the record's full byte count.  (A partial write breaks it; see
the counterexample.) -/
theorem C2_mirror_invariant :
    (∀ (p : String) (m : Nat) (z : Bool) (ex : List Nat)
        (d : FileSplitAppenderData),
        FileSplitAppender.new p m z ex = some d → mirrorInvB d = true) ∧
    (∀ (d : FileSplitAppenderData) (bytes : List Nat) (openOk : Bool)
        (wr : WriteResult),
        mirrorInvB d = true →
        wr = WriteResult.err ∨ wr = WriteResult.ok bytes.length →
        ∃ d' ops,
          FileSplitAppender.do_log d bytes openOk wr = some (d', ops) ∧
            mirrorInvB d' = true) := by
  constructor
  · intro p m z ex d h
    unfold FileSplitAppender.new at h
    cases hp : pathAccepted p <;> rw [hp] at h
    · simp at h
    · simp at h
      rw [← h]
      simp [mirrorInvB]
  · intro d bytes openOk wr hinv hwr
    rcases hm : d.temp_data with _ | l
    · rw [mirrorInvB, hm] at hinv
      simp at hinv
    · rw [mirrorInvB, hm] at hinv
      simp only [Bool.and_eq_true, beq_iff_eq] at hinv
      obtain ⟨⟨hl, hb⟩, hc⟩ := hinv
      by_cases hfull : d.max_split_bytes ≤ d.temp_bytes
      · rcases hwr with rfl | rfl
        · obtain ⟨rotOps, hrun⟩ :=
            do_log_full_rotation d bytes openOk WriteResult.err l hm hfull
          exact ⟨_, _, hrun, by simp [mirrorInvB]⟩
        · obtain ⟨rotOps, hrun⟩ :=
            do_log_full_rotation d bytes openOk
              (WriteResult.ok bytes.length) l hm hfull
          exact ⟨_, _, hrun, by simp [mirrorInvB]⟩
      · rcases hwr with rfl | rfl
        · refine ⟨d, [FileOp.write bytes, FileOp.flush], ?_, ?_⟩
          · simp [FileSplitAppender.do_log, hfull]
          · rw [mirrorInvB, hm]
            simp [hl, hb, hc]
        · refine ⟨{ d with
              fileContent := writeAt d.fileContent d.cursor
                (bytes.take bytes.length)
              cursor := d.cursor + bytes.length
              temp_data := some (l ++ bytes)
              temp_bytes := d.temp_bytes + bytes.length },
            [FileOp.write bytes, FileOp.flush], ?_, ?_⟩
          · simp [FileSplitAppender.do_log, hfull, hm]
          · simp [mirrorInvB, List.take_length, hc, writeAt_append, hl, hb]

/-- C2 amended witness: from a concrete empty appender, a do_log whose
write accepts the record's full two bytes preserves the mirror
invariant. -/
theorem C2_witness :
    ∃ d' ops,
      FileSplitAppender.do_log
          { max_split_bytes := 100, dir_path := "", fileContent := [],
            cursor := 0, zip_compress := false, temp_bytes := 0,
            temp_data := some [] } [5, 6] true (WriteResult.ok 2) =
        some (d', ops) ∧ mirrorInvB d' = true :=
  C2_mirror_invariant.2 _ [5, 6] true (WriteResult.ok 2) (by decide)
    (Or.inr rfl)

end FastLog
